import Mathlib

/-!
Verification of the earthquake-visualizer front end (src/src/App.jsx).

The relevant program logic is embedded shallowly:

* JS strings are modelled as `List Char`; `String.prototype.trim`,
  `toLowerCase` and `includes` are re-implemented structurally
  (`jsTrim`, `jsLower`, `listIncludes`).
* JS numbers occurring in the pipeline are exact here: event times
  (epoch milliseconds) are `Int`, magnitudes and coordinates are `ℚ`.
  All operations performed on them by the program (comparison,
  subtraction in the sort comparator, squaring, `Math.max`) are exact
  on the values in range, so no floating-point rounding is involved.
* A GeoJSON feature is the structure `Feature`; `properties` is always
  present (the code dereferences `f.properties.time` unconditionally),
  while `place`, `mag`, `url` and `geometry` may be absent.  A
  coordinate entry that is not a JS number is `JSVal.undef`.
* `Array.prototype.sort` with comparator `(a, b) => a.properties.time -
  b.properties.time` is a stable sort by `time` (ES2019 requires
  stability); it is embedded as `List.insertionSort`, which is a stable
  sort by the same key.
* The React state (`features`, `timeIndex`, `querying`, `isPlaying`)
  and the effects acting on it are embedded as explicit state passing
  on `AppState`.  The `cancelled` flag of the fetch effect marks a
  request stale exactly when a newer request has been issued, so a
  completion is applied iff its generation equals the latest one.
-/

/-! Part 1: JS string primitives -/

/-- Whitespace as far as the queries in this program are concerned
(`String.prototype.trim`). -/
def jsWhite (c : Char) : Bool :=
  c = ' ' || c = '\t' || c = '\n' || c = '\r'

/-- JS `String.prototype.trim`: strip whitespace from both ends. -/
def jsTrim (s : List Char) : List Char :=
  ((s.dropWhile jsWhite).reverse.dropWhile jsWhite).reverse

/-- JS `String.prototype.toLowerCase` (ASCII case folding). -/
def jsLower (s : List Char) : List Char := s.map Char.toLower

/-- Does `hay` start with `needle`? -/
def listStartsWith : List Char → List Char → Bool
  | _, [] => true
  | [], _ :: _ => false
  | c :: cs, d :: ds => c = d && listStartsWith cs ds

/-- JS `String.prototype.includes`: does `needle` occur contiguously in
`hay`?  (`listIncludes hay []` is `true`, as in JS.) -/
def listIncludes : List Char → List Char → Bool
  | hay, needle =>
    listStartsWith hay needle ||
      match hay with
      | [] => false
      | _ :: t => listIncludes t needle

/-! Part 2: data model -/

/-- A JS value found in a `geometry.coordinates` slot: a number, or
anything else (`undefined`, `null`, a string, ...), which the program
only ever probes with `typeof x !== "number"`. -/
inductive JSVal where
  | num (x : ℚ)
  | undef
deriving DecidableEq

/-- The test `typeof v === "number"`. -/
def JSVal.isNum : JSVal → Bool
  | .num _ => true
  | .undef => false

/-- The `feature.properties` object of the USGS GeoJSON response.
`time` is always present (the code reads `f.properties.time` without a
guard); `mag`, `place` and `url` may be absent. -/
structure EventProps where
  time : Int
  mag : Option ℚ
  place : Option (List Char)
  url : Option (List Char)
deriving DecidableEq

/-- One GeoJSON feature as consumed by `App.jsx`. -/
structure Feature where
  id : String
  properties : EventProps
  geometry : Option (List JSVal)
deriving DecidableEq

/-- Destructuring `const [lng, lat, depthKm] = f.geometry?.coordinates
|| []`: position `i` of the coordinate array, `undefined` when the
array (or `geometry` itself) is missing or too short. -/
def coordAt (f : Feature) (i : Nat) : JSVal :=
  (f.geometry.getD []).getD i JSVal.undef

/-! Part 3: magnitude styling -/

/-- Function `magnitudeColor` from `App.jsx`, the if-chain over the
thresholds 7, 6, 5, 4, 3, 2. -/
def magnitudeColor (m : ℚ) : String :=
  if m ≥ 7 then "#7f0000"
  else if m ≥ 6 then "#b30000"
  else if m ≥ 5 then "#e34a33"
  else if m ≥ 4 then "#fc8d59"
  else if m ≥ 3 then "#fdbb84"
  else if m ≥ 2 then "#fdd49e"
  else "#fee8c8"

/-- Function `magToRadius` from `App.jsx`:
`Math.max(3, Math.pow(m + 1, 2))`. -/
def magToRadius (m : ℚ) : ℚ := max 3 ((m + 1) ^ 2)

/-- Band index determined by the thresholds 2, 3, 4, 5, 6, 7, used to
state the claim that `magnitudeColor` is constant exactly on these
bands.  (Stated from the spec's words; the bands are the intervals
below 2, [2,3), [3,4), [4,5), [5,6), [6,7) and 7 upward.) -/
def magBand (m : ℚ) : Nat :=
  if m ≥ 7 then 6
  else if m ≥ 6 then 5
  else if m ≥ 5 then 4
  else if m ≥ 4 then 3
  else if m ≥ 3 then 2
  else if m ≥ 2 then 1
  else 0

/-- Lookup table pairing each band with the color literal that
`magnitudeColor` returns on it (proof device for the color claim). -/
def bandColor : Nat → String
  | 6 => "#7f0000"
  | 5 => "#b30000"
  | 4 => "#e34a33"
  | 3 => "#fc8d59"
  | 2 => "#fdbb84"
  | 1 => "#fdd49e"
  | _ => "#fee8c8"

/-! Part 4: timeline index and filter pipeline -/

/-- The sort key relation of the comparator
`(a, b) => a.properties.time - b.properties.time`. -/
def timeLE (a b : Feature) : Prop := a.properties.time ≤ b.properties.time

instance : DecidableRel timeLE :=
  fun a b => inferInstanceAs (Decidable (a.properties.time ≤ b.properties.time))

instance : IsTotal Feature timeLE :=
  ⟨fun a b => Int.le_total a.properties.time b.properties.time⟩

instance : IsTrans Feature timeLE :=
  ⟨fun _ _ _ h1 h2 => le_trans h1 h2⟩

/-- The memo `const sorted = [...features].sort((a, b) =>
a.properties.time - b.properties.time)`: a stable sort by `time`. -/
def sortedEvents (features : List Feature) : List Feature :=
  features.insertionSort timeLE

/-- The memo `const times = sorted.map((f) => f.properties.time)`. -/
def times (features : List Feature) : List Int :=
  (sortedEvents features).map (fun f => f.properties.time)

/-- The text predicate of the filter pipeline:
`(f.properties?.place || "").toLowerCase().includes(q)` with
`q = textFilter.toLowerCase()` (note: `q` is the query as typed, not
trimmed). -/
def placePass (textFilter : List Char) (f : Feature) : Bool :=
  listIncludes (jsLower (f.properties.place.getD [])) (jsLower textFilter)

/-- JS `t <= c` where `c` may be `undefined` (`times[timeIndex]` out of
range): any comparison with `undefined` is `false`. -/
def jsLeUndef (t : Int) (c : Option Int) : Bool :=
  match c with
  | some c => t ≤ c
  | none => false

/-- The `filtered` memo of `App.jsx`: start from `sorted`; if the query
is non-blank (`textFilter.trim()` truthy) keep only events whose
lowercased place contains the lowercased query; if `times` is nonempty
keep only events with `time <= times[timeIndex]`. -/
def filtered (features : List Feature) (textFilter : List Char) (timeIndex : Nat) :
    List Feature :=
  let base := sortedEvents features
  let base := if jsTrim textFilter = [] then base else base.filter (placePass textFilter)
  let ts := times features
  if 0 < ts.length then
    base.filter (fun f => jsLeUndef f.properties.time ts[timeIndex]?)
  else base

/-- The filter predicate exactly as claim C1 words it: an event is kept
iff the free-text query occurs case-insensitively in its place, where
an empty query matches every event and an absent place is the empty
string.  (Spec-side definition, to be compared with `filtered`.) -/
def claimedMatch (textFilter : List Char) (f : Feature) : Bool :=
  if textFilter = [] then true
  else listIncludes (jsLower (f.properties.place.getD [])) (jsLower textFilter)

/-- The text predicate of claim C1 as amended: a query that is blank
after trimming matches every event; any other query is matched as
typed (untrimmed), case-insensitively, against the place. -/
def amendedMatch (textFilter : List Char) (f : Feature) : Bool :=
  if jsTrim textFilter = [] then true
  else listIncludes (jsLower (f.properties.place.getD [])) (jsLower textFilter)

/-! Part 5: render surface (circles and heat points) -/

/-- The data handed to one `CircleMarker` element. -/
structure CircleMarker where
  key : String
  center : ℚ × ℚ
  radius : ℚ
  color : String
  fillColor : String
deriving DecidableEq

/-- One step of `filtered.map((f) => ...)` in circles mode: `null`
(here `none`) when `lat` or `lng` is not a number, else the marker. -/
def renderCircle (f : Feature) : Option CircleMarker :=
  let lng := coordAt f 0
  let lat := coordAt f 1
  let m := f.properties.mag.getD 0
  match lat, lng with
  | .num la, .num ln =>
      some ⟨f.id, (la, ln), magToRadius m, magnitudeColor m, magnitudeColor m⟩
  | _, _ => none

/-- All circle markers rendered for a list of events (the `null`
entries produced by invalid coordinates render nothing). -/
def circleMarkers (events : List Feature) : List CircleMarker :=
  events.filterMap renderCircle

/-- One step of the `heatPoints` memo: `[lat, lng, Math.max(0.1, m)]`,
or `null` (here `none`) when `lat` or `lng` is not a number. -/
def heatPoint (f : Feature) : Option (ℚ × ℚ × ℚ) :=
  let lng := coordAt f 0
  let lat := coordAt f 1
  let m := f.properties.mag.getD 0
  match lat, lng with
  | .num la, .num ln => some (la, ln, max (1 / 10) m)
  | _, _ => none

/-- The `heatPoints` memo: `filtered.map(...).filter(Boolean)` (an
array is always truthy, so this is exactly the non-`null` entries). -/
def heatPoints (events : List Feature) : List (ℚ × ℚ × ℚ) :=
  events.filterMap heatPoint

/-! Part 6: reactive state and effects -/

/-- The parse result of one fetch: `data.features` is an array, or the
body parsed but had no `features` array. -/
inductive JsonResponse where
  | withFeatures (fs : List Feature)
  | malformed
deriving DecidableEq

/-- The guard `Array.isArray(data.features) ? data.features : []`. -/
def extractFeatures : JsonResponse → List Feature
  | .withFeatures fs => fs
  | .malformed => []

/-- The React state of `App` that the specified logic touches.
`latest` is the generation number of the most recently issued fetch
effect: the `cancelled` flag of an older effect run has been set
exactly when a newer run exists, i.e. when the old run's generation is
no longer `latest`. -/
structure AppState where
  latest : Nat
  features : List Feature
  timeIndex : Nat
  querying : Bool
  isPlaying : Bool
deriving DecidableEq

/-- Start of a new run of the fetch effect: the previous run's cleanup
sets its `cancelled` flag (modelled by bumping `latest`), and the new
run does `setQuerying(true)`. -/
def issueFetch (s : AppState) : AppState :=
  { s with latest := s.latest + 1, querying := true }

/-- The effect `useEffect(..., [times])`: once the sorted timestamps
are known and nonempty, `setTimeIndex(times.length - 1)`. -/
def snapToEnd (s : AppState) : AppState :=
  if 0 < (times s.features).length then
    { s with timeIndex := (times s.features).length - 1 }
  else s

/-- Arrival of the response of fetch generation `reqId`.  If a newer
fetch has been issued (`reqId ≠ latest`, i.e. `cancelled` is set) every
state update is skipped.  Otherwise: on success `setFeatures(...)`,
`setTimeIndex(0)` and `setQuerying(false)`; on a thrown error (`none`)
`setFeatures([])` and `setQuerying(false)` — note the `catch` branch
does not touch `timeIndex`.  The `[times]` effect then runs on the
re-render. -/
def completeFetch (s : AppState) (reqId : Nat) (result : Option JsonResponse) : AppState :=
  if reqId = s.latest then
    match result with
    | some data =>
        snapToEnd { s with features := extractFeatures data, timeIndex := 0, querying := false }
    | none =>
        snapToEnd { s with features := [], querying := false }
  else s

/-- The play/pause button: starting from Stopped resets the cursor to
0; the flag is toggled either way. -/
def handlePlayPause (s : AppState) : AppState :=
  if s.isPlaying = false then { s with timeIndex := 0, isPlaying := true }
  else { s with isPlaying := false }

/-- One 500 ms interval callback on the cursor:
`prev < times.length - 1 ? prev + 1 : prev` (JS arithmetic, so with no
timestamps the bound is `-1`). -/
def tickCursor (len : Nat) (cursor : Nat) : Nat :=
  if (cursor : Int) < (len : Int) - 1 then cursor + 1 else cursor

/-- One tick of the auto-play effect: the interval only exists while
`isPlaying`; it never changes `isPlaying` (reaching the end clears the
interval but performs no `setIsPlaying`). -/
def tick (s : AppState) : AppState :=
  if s.isPlaying then
    { s with timeIndex := tickCursor (times s.features).length s.timeIndex }
  else s

/-! Part 7: concrete sample data for witnesses and counterexamples -/

/-- Sample event near Tokyo, time 100, magnitude 5. -/
def evA : Feature :=
  ⟨"a", ⟨100, some 5, some "Near Tokyo, Japan".toList, none⟩,
    some [.num 139, .num 35, .num 10]⟩

/-- Sample event in Alaska, time 100 (tied with `evA`), no magnitude. -/
def evB : Feature :=
  ⟨"b", ⟨100, none, some "Alaska".toList, none⟩,
    some [.num (-150), .num 61, .num 5]⟩

/-- Sample event in Tokyo, time 300, no geometry. -/
def evC : Feature :=
  ⟨"c", ⟨300, some 4, some "Tokyo".toList, none⟩, none⟩

/-- Sample event whose latitude slot is not a number. -/
def evBad : Feature :=
  ⟨"x", ⟨200, some 2, none, none⟩, some [.num 10, .undef, .num 3]⟩

/-- A state mid-scrub (cursor 5) with one event loaded and a fetch of
generation 1 outstanding. -/
def s0 : AppState := ⟨1, [evC], 5, true, false⟩

/-- A Stopped state with five events loaded and the cursor scrubbed to
index 3. -/
def sPlay : AppState := ⟨1, [evA, evB, evC, evBad, evBad], 3, false, false⟩

/-! Part 8: helper lemmas -/

theorem sorted_perm (features : List Feature) : (sortedEvents features).Perm features :=
  List.perm_insertionSort timeLE features

theorem sorted_pairwise (features : List Feature) :
    List.Pairwise (fun a b => a.properties.time ≤ b.properties.time) (sortedEvents features) :=
  List.sorted_insertionSort timeLE features

theorem sorted_stable (features : List Feature) (a b : Feature)
    (hab : a.properties.time = b.properties.time) (h : [a, b].Sublist features) :
    [a, b].Sublist (sortedEvents features) :=
  List.pair_sublist_insertionSort (le_of_eq hab) h

theorem times_pairwise (features : List Feature) :
    List.Pairwise (fun a b : Int => a ≤ b) (times features) :=
  (sorted_pairwise features).map _ (fun _ _ h => h)

theorem times_mono (features : List Feature) (i j : Nat) (hj : j < i)
    (hi : i < (times features).length) (hjl : j < (times features).length) :
    (times features)[j] ≤ (times features)[i] := by
  have h := List.pairwise_iff_get.mp (times_pairwise features) ⟨j, hjl⟩ ⟨i, hi⟩ hj
  simpa using h

theorem mem_filtered_time (features : List Feature) (q : List Char) (i : Nat)
    (hi : i < (times features).length) (f : Feature)
    (hf : f ∈ filtered features q i) :
    f.properties.time ≤ (times features)[i] := by
  have hpos : 0 < (times features).length := Nat.lt_of_le_of_lt (Nat.zero_le _) hi
  unfold filtered at hf
  simp only [hpos, if_true, ite_true] at hf
  have h := (List.mem_filter.mp hf).2
  rw [List.getElem?_eq_getElem hi] at h
  simpa [jsLeUndef] using h

theorem filtered_subset (features : List Feature) (q : List Char) (i j : Nat)
    (hj : j < i) (hi : i < (times features).length) (f : Feature)
    (hf : f ∈ filtered features q j) :
    f ∈ filtered features q i := by
  have hjlen : j < (times features).length := Nat.lt_trans hj hi
  have hpos : 0 < (times features).length := Nat.lt_of_le_of_lt (Nat.zero_le _) hi
  unfold filtered at hf ⊢
  simp only [hpos, if_true, ite_true] at hf ⊢
  rcases List.mem_filter.mp hf with ⟨hmem, hpred⟩
  refine List.mem_filter.mpr ⟨hmem, ?_⟩
  rw [List.getElem?_eq_getElem hjlen] at hpred
  rw [List.getElem?_eq_getElem hi]
  have h1 : f.properties.time ≤ (times features)[j] := by simpa [jsLeUndef] using hpred
  have h2 := times_mono features i j hj hi hjlen
  simp only [jsLeUndef, decide_eq_true_eq]
  exact le_trans h1 h2

theorem tick_preserves_playing (t : AppState) : (tick t).isPlaying = t.isPlaying := by
  unfold tick
  split <;> rfl

theorem tick5_fixed : ∀ k, (tickCursor 5)^[k] 4 = 4 := by
  intro k
  induction k with
  | zero => rfl
  | succ n ih =>
      rw [Function.iterate_succ_apply]
      norm_num [tickCursor]
      exact ih

theorem latest_completeFetch (s : AppState) (r : Nat) (x : Option JsonResponse) :
    (completeFetch s r x).latest = s.latest := by
  unfold completeFetch snapToEnd
  split
  · cases x <;> (dsimp only; split <;> rfl)
  · rfl

theorem renderCircle_invalid (f : Feature)
    (h : (coordAt f 1).isNum = false ∨ (coordAt f 0).isNum = false) :
    renderCircle f = none ∧ heatPoint f = none := by
  unfold renderCircle heatPoint
  rcases h with h | h <;>
    [cases hl : coordAt f 1; cases hl : coordAt f 0] <;>
    simp_all [JSVal.isNum]

theorem color_eq_bandColor (m : ℚ) : magnitudeColor m = bandColor (magBand m) := by
  unfold magnitudeColor magBand
  split_ifs <;> rfl

theorem magBand_le_six (m : ℚ) : magBand m ≤ 6 := by
  unfold magBand
  split_ifs <;> omega

theorem bandColor_inj (i j : Nat) (hi : i ≤ 6) (hj : j ≤ 6)
    (h : bandColor i = bandColor j) : i = j := by
  interval_cases i <;> interval_cases j <;> revert h <;> decide

/-! Part 9: the claims -/

/-- Claim C1, as stated, is false: a whitespace-only query (for example
a single space) is blank after trimming, so the code skips the text
filter and keeps the Tokyo event, while the claim's predicate — the
query is a case-insensitive substring of the place, with only the empty
query matching everything — rejects it, because a space does not occur
in the string Tokyo. -/
theorem claim1_counterexample :
    filtered [evC] [' '] 0 ≠
      (sortedEvents [evC]).filter
        (fun f => claimedMatch [' '] f &&
          jsLeUndef f.properties.time (times [evC])[0]?) := by
  decide

/-- Claim C1 (amended): for every in-range cursor, the filter pipeline
output equals the subsequence of `sortedEvents` (in order) of exactly
those events that match the free-text query — a query that is blank
after trimming matches every event, any other query is matched as
typed, case-insensitively, against the place (absent place = empty
string) — and whose time is at most `cutoffMs = timestamps[cursor]`;
no magnitude or depth filtering is applied at this stage. -/
theorem claim1_filter_pipeline (features : List Feature) (textFilter : List Char)
    (cursor : Nat) (h : cursor < (times features).length) :
    filtered features textFilter cursor =
      (sortedEvents features).filter
        (fun f => amendedMatch textFilter f &&
          jsLeUndef f.properties.time (times features)[cursor]?) := by
  have hpos : 0 < (times features).length := Nat.lt_of_le_of_lt (Nat.zero_le _) h
  by_cases htrim : jsTrim textFilter = []
  · simp only [filtered, htrim, if_pos, hpos, if_true, ite_true]
    refine List.filter_congr ?_
    intro f hf
    simp [amendedMatch, htrim]
  · simp only [filtered, htrim, if_neg, hpos, if_true, ite_false, ite_true]
    rw [List.filter_filter]
    refine List.filter_congr ?_
    intro f hf
    simp [amendedMatch, htrim, placePass, Bool.and_comm]

/-- Witness for C1: a concrete three-event collection, query "tokyo",
cursor 0. -/
theorem claim1_witness :
    filtered [evA, evB, evC] "tokyo".toList 0 =
      (sortedEvents [evA, evB, evC]).filter
        (fun f => amendedMatch "tokyo".toList f &&
          jsLeUndef f.properties.time (times [evA, evB, evC])[0]?) :=
  claim1_filter_pipeline [evA, evB, evC] "tokyo".toList 0 (by decide)

/-- Claim C2: for every event collection, `sortedEvents` is a
permutation of the collection, non-decreasing by `time`, and events
with equal `time` keep their original relative (feed) order, `time`
being the sole sort key. -/
theorem claim2_sorted (features : List Feature) :
    (sortedEvents features).Perm features ∧
    List.Pairwise (fun a b => a.properties.time ≤ b.properties.time)
      (sortedEvents features) ∧
    ∀ a b : Feature, a.properties.time = b.properties.time →
      [a, b].Sublist features → [a, b].Sublist (sortedEvents features) :=
  ⟨sorted_perm features, sorted_pairwise features,
    fun a b hab h => sorted_stable features a b hab h⟩

/-- Witness for C2: `evA` and `evB` are tied at time 100; after sorting
the collection `[evC, evA, evB]` they still occur in that order. -/
theorem claim2_witness : [evA, evB].Sublist (sortedEvents [evC, evA, evB]) :=
  (claim2_sorted [evC, evA, evB]).2.2 evA evB rfl (by decide)

/-- Claim C3: for in-range cursors `j < i`, the output at cursor `i`
contains only events with `time ≤ timestamps[i]`, and the output at
cursor `j` is a subset of the output at cursor `i` — the visible set
grows monotonically with the cursor. -/
theorem claim3_monotone (features : List Feature) (q : List Char) (i j : Nat)
    (hj : j < i) (hi : i < (times features).length) :
    (∀ f ∈ filtered features q i, f.properties.time ≤ (times features)[i]) ∧
    (∀ f ∈ filtered features q j, f ∈ filtered features q i) :=
  ⟨fun f hf => mem_filtered_time features q i hi f hf,
   fun f hf => filtered_subset features q i j hj hi f hf⟩

/-- Witness for C3: with events at times 100 and 300, the event shown
at cursor 0 is still shown at cursor 1. -/
theorem claim3_witness : evA ∈ filtered [evA, evC] [] 1 :=
  (claim3_monotone [evA, evC] [] 1 0 (by decide) (by decide)).2 evA (by decide)

/-- Claim C4, as stated, is false: after a failed fetch the `catch`
branch replaces the collection with the empty one but never calls
`setTimeIndex(0)`, so from the state `s0` (cursor 5) the cursor stays
at 5 instead of being reset to 0. -/
theorem claim4_counterexample : (completeFetch s0 1 none).timeIndex ≠ 0 := by
  decide

/-- Claim C4 (amended): after every successful completion of the
current fetch, the cursor is reset to 0 and then, once the timestamps
are available and non-empty, advanced to `timestamps.length - 1` (so a
fresh query starts with the full set revealed); after a failed fetch
the collection becomes empty and the cursor is left unchanged. -/
theorem claim4_cursor_reset (s : AppState) (resp : JsonResponse) :
    ((completeFetch s s.latest (some resp)).features = extractFeatures resp ∧
      (completeFetch s s.latest (some resp)).timeIndex =
        (if 0 < (times (extractFeatures resp)).length
         then (times (extractFeatures resp)).length - 1 else 0)) ∧
    ((completeFetch s s.latest none).features = [] ∧
      (completeFetch s s.latest none).timeIndex = s.timeIndex) := by
  refine ⟨⟨?_, ?_⟩, ?_, ?_⟩ <;>
    (unfold completeFetch
     rw [if_pos rfl]
     unfold snapToEnd
     split <;> (try split) <;> simp_all [times, sortedEvents, List.insertionSort])

/-- Claim C5: starting playback from Stopped resets the cursor to 0 and
enters Playing; a tick never leaves Playing; each tick increments the
cursor by exactly 1 when `cursor < timestamps.length - 1` and otherwise
leaves it unchanged; started over five timestamps the cursor advances
0, 1, 2, 3, 4 over four ticks and then holds at 4. -/
theorem claim5_playback (s : AppState) (h : s.isPlaying = false) :
    (handlePlayPause s).isPlaying = true ∧ (handlePlayPause s).timeIndex = 0 ∧
    (∀ t : AppState, (tick t).isPlaying = t.isPlaying) ∧
    (∀ len cursor : Nat,
      ((cursor : Int) < (len : Int) - 1 → tickCursor len cursor = cursor + 1) ∧
      (¬(cursor : Int) < (len : Int) - 1 → tickCursor len cursor = cursor)) ∧
    ((tickCursor 5)^[4] 0 = 4 ∧ ∀ k, (tickCursor 5)^[4 + k] 0 = 4) := by
  refine ⟨?_, ?_, tick_preserves_playing, ?_, by decide, ?_⟩
  · simp [handlePlayPause, h]
  · simp [handlePlayPause, h]
  · intro len cursor
    constructor <;> intro hc <;> simp [tickCursor, hc]
  · intro k
    rw [Nat.add_comm, Function.iterate_add_apply]
    have h4 : (tickCursor 5)^[4] 0 = 4 := by decide
    rw [h4]
    exact tick5_fixed k

/-- Witness for C5: from the Stopped state `sPlay` (cursor scrubbed to
3 of 5), pressing play enters Playing with the cursor reset to 0. -/
theorem claim5_witness :
    (handlePlayPause sPlay).isPlaying = true ∧ (handlePlayPause sPlay).timeIndex = 0 :=
  ⟨(claim5_playback sPlay rfl).1, (claim5_playback sPlay rfl).2.1⟩

/-- Claim C6: when a fetch A is issued and then a fetch B is issued
before A resolves, A's completion is discarded (it does not change the
state at all), and in both completion orders the final event store is
the one determined by B's result. -/
theorem claim6_newest_wins (s : AppState) (rA rB : Option JsonResponse) :
    (completeFetch (issueFetch (issueFetch s)) (issueFetch s).latest rA
        = issueFetch (issueFetch s)) ∧
    ((completeFetch (completeFetch (issueFetch (issueFetch s))
        (issueFetch (issueFetch s)).latest rB) (issueFetch s).latest rA).features
      = (completeFetch (issueFetch (issueFetch s))
            (issueFetch (issueFetch s)).latest rB).features) ∧
    ((completeFetch (completeFetch (issueFetch (issueFetch s))
        (issueFetch s).latest rA) (issueFetch (issueFetch s)).latest rB).features
      = (completeFetch (issueFetch (issueFetch s))
            (issueFetch (issueFetch s)).latest rB).features) := by
  have hne : (issueFetch s).latest ≠ (issueFetch (issueFetch s)).latest := by
    simp [issueFetch]
  have hdiscard : ∀ t : AppState, t.latest = (issueFetch (issueFetch s)).latest →
      completeFetch t (issueFetch s).latest rA = t := by
    intro t ht
    unfold completeFetch
    rw [if_neg (by rw [ht]; exact hne)]
  refine ⟨hdiscard _ rfl, ?_, ?_⟩
  · rw [hdiscard _ (latest_completeFetch _ _ _)]
  · rw [hdiscard _ rfl]

/-- Claim C7: on any fetch failure — a thrown network/parse error
(`none`) or a parsed body without a features array (`malformed`) — the
event store becomes empty and the loading indicator is cleared; the
view then renders an empty set (the model is a total function, so no
exception can propagate to the render surface). -/
theorem claim7_fetch_failure (s : AppState) :
    (completeFetch s s.latest none).features = [] ∧
    (completeFetch s s.latest none).querying = false ∧
    (completeFetch s s.latest (some .malformed)).features = [] ∧
    (completeFetch s s.latest (some .malformed)).querying = false ∧
    (∀ q k, filtered (completeFetch s s.latest none).features q k = []) := by
  refine ⟨?_, ?_, ?_, ?_, ?_⟩ <;>
    simp_all [completeFetch, snapToEnd, extractFeatures, times, sortedEvents, filtered,
      List.insertionSort]

/-- Claim C8: an event whose latitude or longitude is not a number is
silently excluded from rendering in both circles mode and heat mode,
while every other event is rendered exactly as it would be without the
invalid one; no error is raised (both renderers are total). -/
theorem claim8_invalid_coordinate (pre post : List Feature) (bad : Feature)
    (h : (coordAt bad 1).isNum = false ∨ (coordAt bad 0).isNum = false) :
    circleMarkers (pre ++ bad :: post) = circleMarkers (pre ++ post) ∧
    heatPoints (pre ++ bad :: post) = heatPoints (pre ++ post) := by
  obtain ⟨h1, h2⟩ := renderCircle_invalid bad h
  constructor
  · unfold circleMarkers
    rw [List.filterMap_append, List.filterMap_append, List.filterMap_cons, h1]
  · unfold heatPoints
    rw [List.filterMap_append, List.filterMap_append, List.filterMap_cons, h2]

/-- Witness for C8: `evBad` has a non-numeric latitude slot; dropping
it from `[evA, evBad, evC]` changes neither the circle markers nor the
heat points. -/
theorem claim8_witness :
    circleMarkers ([evA] ++ evBad :: [evC]) = circleMarkers ([evA] ++ [evC]) ∧
    heatPoints ([evA] ++ evBad :: [evC]) = heatPoints ([evA] ++ [evC]) :=
  claim8_invalid_coordinate [evA] [evC] evBad (by decide)

/-- Claim C9, as stated, is false: the radius map is not monotone on
all magnitudes, because `(m + 1)^2` decreases below `m = -1`: at the
explicit inputs `-4 ≤ -2` the radius drops from 9 to 3. -/
theorem claim9_counterexample :
    ((-4 : ℚ) ≤ -2) ∧ magToRadius (-2) < magToRadius (-4) := by
  constructor
  · norm_num
  · unfold magToRadius
    have h1 : ((-4 : ℚ) + 1) ^ 2 = 9 := by norm_num
    have h2 : ((-2 : ℚ) + 1) ^ 2 = 1 := by norm_num
    rw [h1, h2]
    rw [max_eq_left (by norm_num : (1 : ℚ) ≤ 3),
      max_eq_right (by norm_num : (3 : ℚ) ≤ 9)]
    norm_num

/-- Claim C9 (amended): for all magnitudes `-1 ≤ m1 ≤ m2` — which
covers every magnitude this app can receive, since the server-side
query bounds magnitudes below by the non-negative slider value — the
radius is monotone, and two magnitudes get the same color exactly when
they lie in the same band delimited by the thresholds 2, 3, 4, 5, 6, 7. -/
theorem claim9_radius_color (m1 m2 : ℚ) :
    (-1 ≤ m1 → m1 ≤ m2 → magToRadius m1 ≤ magToRadius m2) ∧
    (magnitudeColor m1 = magnitudeColor m2 ↔ magBand m1 = magBand m2) := by
  constructor
  · intro h1 h12
    unfold magToRadius
    exact max_le_max le_rfl (pow_le_pow_left₀ (by linarith) (by linarith) 2)
  · constructor
    · intro h
      apply bandColor_inj _ _ (magBand_le_six m1) (magBand_le_six m2)
      rw [← color_eq_bandColor, ← color_eq_bandColor, h]
    · intro h
      rw [color_eq_bandColor, color_eq_bandColor, h]

/-- Witness for C9: radius monotonicity at the concrete magnitudes 2
and 3, and the color/band equivalence at 2 and 3. -/
theorem claim9_witness :
    magToRadius 2 ≤ magToRadius 3 ∧
    (magnitudeColor 2 = magnitudeColor 3 ↔ magBand 2 = magBand 3) :=
  ⟨(claim9_radius_color 2 3).1 (by norm_num) (by norm_num),
    (claim9_radius_color 2 3).2⟩

/-- Claim C10: the pipeline is total at an out-of-range cursor — when
the timestamps are non-empty and the cursor is past the end, the cutoff
lookup yields no value (`undefined`), the JS comparison rejects every
event, and the output is the empty list; when the timestamps are empty
the cutoff filter is skipped entirely and only the text filter applies. -/
theorem claim10_out_of_range (features : List Feature) (q : List Char) (idx : Nat) :
    (0 < (times features).length → (times features).length ≤ idx →
      filtered features q idx = []) ∧
    ((times features).length = 0 →
      filtered features q idx =
        if jsTrim q = [] then sortedEvents features
        else (sortedEvents features).filter (placePass q)) := by
  constructor
  · intro hpos hidx
    unfold filtered
    simp only [hpos, if_true, ite_true]
    rw [List.getElem?_eq_none hidx]
    simp [jsLeUndef]
  · intro hzero
    unfold filtered
    simp [hzero]

/-- Witness for C10: one event, cursor 5 (past the end): the output is
empty rather than an error. -/
theorem claim10_witness : filtered [evC] [] 5 = [] :=
  (claim10_out_of_range [evC] [] 5).1 (by decide) (by decide)
